import Mathlib

/-!
Shallow embedding of the Famigo backend's points-ledger and task-lifecycle
core (app/services/task_service.py, app/services/reward_service.py,
app/api/routes/rewards.py, models in app/models/points.py, task.py,
reward.py, family_member.py).  Entities are records, the database is lists
of rows, and each service function is a pure function from a database state
to a result carrying the updated state on success.
-/

namespace Famigo

/-- MemberRole enum from app/models/family_member.py. -/
inductive MemberRole
  | PARENT
  | CHILD
deriving DecidableEq, Repr

/-- TaskStatus enum from app/models/task.py. -/
inductive TaskStatus
  | OPEN
  | IN_PROGRESS
  | DONE
  | EXPIRED
deriving DecidableEq, Repr

/-- TransactionType enum from app/models/points.py. -/
inductive TransactionType
  | EARN
  | SPEND
  | ADJUST
deriving DecidableEq, Repr

/-- RedemptionStatus enum from app/models/reward.py. -/
inductive RedemptionStatus
  | REQUESTED
  | APPROVED
  | REDEEMED
  | REJECTED
  | CANCELLED
deriving DecidableEq, Repr

/-- FamilyMember row (app/models/family_member.py); ids are modelled as Nat. -/
structure FamilyMember where
  id : Nat
  family_id : Nat
  user_id : Nat
  role : MemberRole
deriving DecidableEq, Repr

/-- Wallet row (app/models/points.py): one balance per member. -/
structure Wallet where
  id : Nat
  member_id : Nat
  balance : Int
deriving DecidableEq, Repr

/-- Transaction row (app/models/points.py): immutable signed ledger entry. -/
structure Transaction where
  id : Nat
  wallet_id : Nat
  amount : Int
  type : TransactionType
  reason : String
  task_assignment_id : Option Nat
  redemption_id : Option Nat
  created_by_member_id : Option Nat
deriving DecidableEq, Repr

/-- Task row (app/models/task.py); deadline and timestamps are abstract Nat. -/
structure Task where
  id : Nat
  family_id : Nat
  title : String
  description : Option String
  deadline : Option Nat
  status : TaskStatus
  points_value : Int
  created_by_member_id : Option Nat
deriving DecidableEq, Repr

/-- TaskAssignment row (app/models/task.py). -/
structure TaskAssignment where
  id : Nat
  task_id : Nat
  assignee_id : Nat
  is_completed : Bool
  completed_at : Option Nat
deriving DecidableEq, Repr

/-- Reward row (app/models/reward.py). -/
structure Reward where
  id : Nat
  family_id : Nat
  title : String
  description : Option String
  cost_points : Int
  is_active : Bool
deriving DecidableEq, Repr

/-- Redemption row (app/models/reward.py). -/
structure Redemption where
  id : Nat
  reward_id : Nat
  requested_by_member_id : Nat
  approved_by_member_id : Option Nat
  status : RedemptionStatus
  updated_at : Nat
  redeemed_at : Option Nat
deriving DecidableEq, Repr

/-- The relational store: one list of rows per entity table. -/
structure DB where
  members : List FamilyMember
  tasks : List Task
  assignments : List TaskAssignment
  wallets : List Wallet
  transactions : List Transaction
  rewards : List Reward
  redemptions : List Redemption
deriving DecidableEq, Repr

/-- db.get(Task, task_id). -/
def getTask (db : DB) (task_id : Nat) : Option Task :=
  db.tasks.find? (fun t => decide (t.id = task_id))

/-- db.get(FamilyMember, member_id). -/
def getMember (db : DB) (member_id : Nat) : Option FamilyMember :=
  db.members.find? (fun m => decide (m.id = member_id))

/-- db.get(TaskAssignment, assignment_id). -/
def getAssignment (db : DB) (assignment_id : Nat) : Option TaskAssignment :=
  db.assignments.find? (fun a => decide (a.id = assignment_id))

/-- db.get(Reward, reward_id). -/
def getReward (db : DB) (reward_id : Nat) : Option Reward :=
  db.rewards.find? (fun r => decide (r.id = reward_id))

/-- db.get(Redemption, redemption_id). -/
def getRedemption (db : DB) (redemption_id : Nat) : Option Redemption :=
  db.redemptions.find? (fun r => decide (r.id = redemption_id))

/-- All wallet rows of a member (Wallet.member_id carries a unique index). -/
def walletsOfMember (db : DB) (member_id : Nat) : List Wallet :=
  db.wallets.filter (fun w => decide (w.member_id = member_id))

/-- task_service._get_wallet: select Wallet where member_id, scalar_one_or_none. -/
def getWallet (db : DB) (member_id : Nat) : Option Wallet :=
  db.wallets.find? (fun w => decide (w.member_id = member_id))

/-- family_service.ensure_member: the member of a family for a given user. -/
def ensure_member (db : DB) (user_id family_id : Nat) : Option FamilyMember :=
  db.members.find? (fun m => decide (m.user_id = user_id ∧ m.family_id = family_id))

/-- ORM in-place update of a task row, keyed by id. -/
def DB.setTask (db : DB) (t : Task) : DB :=
  { db with tasks := db.tasks.map (fun x => if x.id = t.id then t else x) }

/-- ORM in-place update of an assignment row, keyed by id. -/
def DB.setAssignment (db : DB) (a : TaskAssignment) : DB :=
  { db with assignments := db.assignments.map (fun x => if x.id = a.id then a else x) }

/-- ORM in-place update of a wallet row, keyed by id. -/
def DB.setWallet (db : DB) (w : Wallet) : DB :=
  { db with wallets := db.wallets.map (fun x => if x.id = w.id then w else x) }

/-- ORM in-place update of a redemption row, keyed by id. -/
def DB.setRedemption (db : DB) (r : Redemption) : DB :=
  { db with redemptions := db.redemptions.map (fun x => if x.id = r.id then r else x) }

/-- db.add(txn): append a transaction row. -/
def DB.addTxn (db : DB) (t : Transaction) : DB :=
  { db with transactions := db.transactions ++ [t] }

/-- db.add(redemption): append a redemption row. -/
def DB.addRedemption (db : DB) (r : Redemption) : DB :=
  { db with redemptions := db.redemptions ++ [r] }

/-- db.add(assignment): append an assignment row. -/
def DB.addAssignment (db : DB) (a : TaskAssignment) : DB :=
  { db with assignments := db.assignments ++ [a] }

/-- The two distinct ValueError raise sites of task_service.assign_task. -/
inductive AssignError
  | notFound
  | crossFamily
deriving DecidableEq, Repr

/-- task_service.assign_task: not-found and cross-family checks, idempotent
on an existing (task_id, assignee_id) pair, creates the assignment (fresh id
supplied as newId) and moves an OPEN task to IN_PROGRESS. -/
def assign_task (db : DB) (newId task_id assignee_id : Nat) :
    Except AssignError (DB × TaskAssignment) :=
  match getTask db task_id, getMember db assignee_id with
  | some task, some assignee =>
    if assignee.family_id ≠ task.family_id then
      Except.error AssignError.crossFamily
    else
      match db.assignments.find?
          (fun x => decide (x.task_id = task_id ∧ x.assignee_id = assignee_id)) with
      | some existing => Except.ok (db, existing)
      | none =>
        let a : TaskAssignment :=
          { id := newId, task_id := task_id, assignee_id := assignee_id
            is_completed := false, completed_at := none }
        let db1 := db.addAssignment a
        let db2 :=
          if task.status = TaskStatus.OPEN then
            db1.setTask { task with status := TaskStatus.IN_PROGRESS }
          else db1
        Except.ok (db2, a)
  | _, _ => Except.error AssignError.notFound

/-- reason string built by complete_assignment for the EARN transaction. -/
def mkEarnReason (title : String) : String :=
  "Task \x27" ++ title ++ "\x27 completed"

/-- reason string built by approve_redemption for the SPEND transaction. -/
def mkRedeemReason (title : String) : String :=
  "Redeem \x27" ++ title ++ "\x27"

/-- The credit block of task_service.complete_assignment: if the parent task
and the assignee wallet both exist and task.points_value is truthy (nonzero),
add points_value to the balance and append the EARN transaction. -/
def creditStep (db : DB) (txnId : Nat) (a2 : TaskAssignment) (by_member_id : Nat) : DB :=
  match getTask db a2.task_id, getWallet db a2.assignee_id with
  | some task, some wallet =>
    if task.points_value ≠ 0 then
      let w2 := { wallet with balance := wallet.balance + task.points_value }
      let txn : Transaction :=
        { id := txnId, wallet_id := wallet.id, amount := task.points_value
          type := TransactionType.EARN, reason := mkEarnReason task.title
          task_assignment_id := some a2.id, redemption_id := none
          created_by_member_id := some by_member_id }
      (db.setWallet w2).addTxn txn
    else db
  | _, _ => db

/-- Whether every assignment row under a task is completed
(all x.is_completed for x in task.assignments). -/
def allAssignmentsCompleted (db : DB) (task_id : Nat) : Bool :=
  (db.assignments.filter (fun x => decide (x.task_id = task_id))).all
    (fun x => x.is_completed)

/-- The final block of task_service.complete_assignment: when the parent task
row exists, unconditionally overwrite its status with DONE when all its
assignments are completed and IN_PROGRESS otherwise. -/
def taskStatusStep (db : DB) (task_id : Nat) : DB :=
  match getTask db task_id with
  | some task =>
    db.setTask
      { task with
        status :=
          if allAssignmentsCompleted db task_id then TaskStatus.DONE
          else TaskStatus.IN_PROGRESS }
  | none => db

/-- task_service.complete_assignment: None when the assignment is missing or
the caller is not the assignee; the unchanged record when already completed;
otherwise marks completion at time now, runs the credit block (fresh
transaction id txnId), then recomputes the parent task status. -/
def complete_assignment (db : DB) (now txnId assignment_id by_member_id : Nat) :
    Option (DB × TaskAssignment) :=
  match getAssignment db assignment_id with
  | none => none
  | some a =>
    if a.assignee_id ≠ by_member_id then none
    else if a.is_completed then some (db, a)
    else
      let a2 := { a with is_completed := true, completed_at := some now }
      let db1 := db.setAssignment a2
      let db2 := creditStep db1 txnId a2 by_member_id
      let db3 := taskStatusStep db2 a2.task_id
      some (db3, a2)

/-- Whether some assignment row under a task is completed
(any a.is_completed for a in task.assignments). -/
def anyAssignmentCompleted (db : DB) (task_id : Nat) : Bool :=
  (db.assignments.filter (fun x => decide (x.task_id = task_id))).any
    (fun x => x.is_completed)

/-- The three observable outcomes of task_service.update_task: a plain None
(task missing, editor missing or in another family, or editor neither creator
nor PARENT), the ValueError raised when the task is locked after completion,
or the updated task. -/
inductive UpdateResult
  | noResult
  | locked
  | ok (db : DB) (t : Task)
deriving DecidableEq, Repr

/-- task_service.update_task: permission check (creator or PARENT in the same
family), edit lock once any assignment is completed or status is DONE,
partial update of the provided fields. -/
def update_task (db : DB) (task_id editor_member_id : Nat)
    (title description : Option String) (deadline : Option Nat)
    (points_value : Option Int) : UpdateResult :=
  match getTask db task_id with
  | none => UpdateResult.noResult
  | some task =>
    match getMember db editor_member_id with
    | none => UpdateResult.noResult
    | some editor =>
      if editor.family_id ≠ task.family_id then UpdateResult.noResult
      else
        let is_creator := task.created_by_member_id = some editor_member_id
        let is_parent := editor.role = MemberRole.PARENT
        if ¬(is_creator ∨ is_parent) then UpdateResult.noResult
        else if anyAssignmentCompleted db task_id ∨ task.status = TaskStatus.DONE then
          UpdateResult.locked
        else
          let t1 := match title with | some v => { task with title := v } | none => task
          let t2 := match description with | some v => { t1 with description := some v } | none => t1
          let t3 := match deadline with | some v => { t2 with deadline := some v } | none => t2
          let t4 := match points_value with | some v => { t3 with points_value := v } | none => t3
          UpdateResult.ok (db.setTask t4) t4

/-- The observable outcomes of reward_service.approve_redemption: None (the
typed no-result failure used for missing redemption, wrong status and
insufficient funds), the untyped exception raised by scalar_one when the
requester has no (or several) wallet rows, the attribute error on a missing
reward row, or success. -/
inductive ApproveOutcome
  | noResult
  | noWalletRow
  | missingReward
  | ok (db : DB) (red : Redemption)
deriving DecidableEq, Repr

/-- reward_service.approve_redemption: requires the redemption to exist in
REQUESTED status, loads the requester wallet with scalar_one (which raises
unless exactly one row exists), rejects when balance < cost_points, otherwise
debits the wallet, appends the SPEND transaction (fresh id txnId) and stamps
the redemption APPROVED at time now. -/
def approve_redemption (db : DB) (now txnId redemption_id : Nat)
    (approved_by_member_id : Option Nat) : ApproveOutcome :=
  match getRedemption db redemption_id with
  | none => ApproveOutcome.noResult
  | some red =>
    if red.status ≠ RedemptionStatus.REQUESTED then ApproveOutcome.noResult
    else
      match walletsOfMember db red.requested_by_member_id with
      | [wallet] =>
        match getReward db red.reward_id with
        | none => ApproveOutcome.missingReward
        | some reward =>
          if wallet.balance < reward.cost_points then ApproveOutcome.noResult
          else
            let w2 := { wallet with balance := wallet.balance - reward.cost_points }
            let txn : Transaction :=
              { id := txnId, wallet_id := wallet.id, amount := -reward.cost_points
                type := TransactionType.SPEND, reason := mkRedeemReason reward.title
                task_assignment_id := none, redemption_id := some red.id
                created_by_member_id := approved_by_member_id }
            let red2 :=
              { red with
                approved_by_member_id := approved_by_member_id
                status := RedemptionStatus.APPROVED
                updated_at := now }
            ApproveOutcome.ok (((db.setWallet w2).addTxn txn).setRedemption red2) red2
      | _ => ApproveOutcome.noWalletRow

/-- Outcome of the redeem_now route: an HTTPException with its status code,
or success with the remaining balance. -/
inductive RedeemNowResult
  | http (code : Nat)
  | ok (db : DB) (remaining : Int)
deriving DecidableEq, Repr

/-- routes/rewards.py redeem_now (POST /rewards/id/redeem): loads the reward,
resolves the caller as a member of the reward family, rejects parents, loads
the first wallet of the member, checks the balance, then decrements the
balance and inserts a Redemption already in REDEEMED status (fresh id redId,
time now).  It inserts no Transaction row. -/
def redeem_now (db : DB) (now redId reward_id current_user_id : Nat) :
    RedeemNowResult :=
  match getReward db reward_id with
  | none => RedeemNowResult.http 404
  | some reward =>
    match ensure_member db current_user_id reward.family_id with
    | none => RedeemNowResult.http 403
    | some member =>
      if member.role = MemberRole.PARENT then RedeemNowResult.http 403
      else
        match (walletsOfMember db member.id).head? with
        | none => RedeemNowResult.http 404
        | some wallet =>
          if wallet.balance < reward.cost_points then RedeemNowResult.http 400
          else
            let w2 := { wallet with balance := wallet.balance - reward.cost_points }
            let red : Redemption :=
              { id := redId, reward_id := reward.id
                requested_by_member_id := member.id
                approved_by_member_id := some member.id
                status := RedemptionStatus.REDEEMED
                updated_at := now, redeemed_at := some now }
            RedeemNowResult.ok ((db.setWallet w2).addRedemption red) w2.balance

/-- Sum of the transaction amounts booked against a wallet. -/
def walletTxnSum (db : DB) (wallet_id : Nat) : Int :=
  ((db.transactions.filter (fun t => decide (t.wallet_id = wallet_id))).map
    (fun t => t.amount)).sum

/-- Ledger integrity: every wallet balance equals the sum of its transaction
amounts. -/
def ledgerIntegrity (db : DB) : Bool :=
  db.wallets.all (fun w => decide (w.balance = walletTxnSum db w.id))

/-- The EARN transactions booked against a given assignment. -/
def earnTxnsFor (db : DB) (assignment_id : Nat) : List Transaction :=
  db.transactions.filter
    (fun t => decide (t.task_assignment_id = some assignment_id ∧
                      t.type = TransactionType.EARN))

/-! ### Helper lemmas -/

/-- Replacing every p-row of a list by a fixed p-row b preserves a successful
find?, which now returns b. -/
theorem find?_map_replace {α : Type} (p : α → Bool) (f : α → α) (b : α)
    (hb : p b = true) (hf : ∀ x, p x = true → f x = b)
    (hid : ∀ x, p x = false → f x = x) :
    ∀ (l : List α) (a : α), l.find? p = some a → (l.map f).find? p = some b := by
  intro l
  induction l with
  | nil => intro a h; simp [List.find?] at h
  | cons x xs ih =>
    intro a h
    by_cases hx : p x = true
    · rw [List.map_cons, List.find?_cons_of_pos _ (by rw [hf x hx]; exact hb)]
      rw [hf x hx]
    · have hx2 : p x = false := by
        cases hpx : p x
        · rfl
        · exact absurd hpx hx
      rw [List.find?_cons_of_neg _ hx] at h
      rw [List.map_cons, hid x hx2, List.find?_cons_of_neg _ hx]
      exact ih a h

theorem setAssignment_tasks (db : DB) (a : TaskAssignment) :
    (db.setAssignment a).tasks = db.tasks := rfl

theorem setAssignment_wallets (db : DB) (a : TaskAssignment) :
    (db.setAssignment a).wallets = db.wallets := rfl

theorem setAssignment_transactions (db : DB) (a : TaskAssignment) :
    (db.setAssignment a).transactions = db.transactions := rfl

theorem creditStep_assignments (db : DB) (txnId : Nat) (a2 : TaskAssignment)
    (mid : Nat) : (creditStep db txnId a2 mid).assignments = db.assignments := by
  unfold creditStep
  cases getTask db a2.task_id with
  | none => rfl
  | some t =>
    cases getWallet db a2.assignee_id with
    | none => rfl
    | some w =>
      by_cases h : t.points_value ≠ 0
      · simp [h, DB.setWallet, DB.addTxn]
      · simp [h]

theorem creditStep_tasks (db : DB) (txnId : Nat) (a2 : TaskAssignment)
    (mid : Nat) : (creditStep db txnId a2 mid).tasks = db.tasks := by
  unfold creditStep
  cases getTask db a2.task_id with
  | none => rfl
  | some t =>
    cases getWallet db a2.assignee_id with
    | none => rfl
    | some w =>
      by_cases h : t.points_value ≠ 0
      · simp [h, DB.setWallet, DB.addTxn]
      · simp [h]

theorem taskStatusStep_assignments (db : DB) (task_id : Nat) :
    (taskStatusStep db task_id).assignments = db.assignments := by
  unfold taskStatusStep
  cases getTask db task_id with
  | none => rfl
  | some t => simp [DB.setTask]

theorem taskStatusStep_wallets (db : DB) (task_id : Nat) :
    (taskStatusStep db task_id).wallets = db.wallets := by
  unfold taskStatusStep
  cases getTask db task_id with
  | none => rfl
  | some t => simp [DB.setTask]

theorem taskStatusStep_transactions (db : DB) (task_id : Nat) :
    (taskStatusStep db task_id).transactions = db.transactions := by
  unfold taskStatusStep
  cases getTask db task_id with
  | none => rfl
  | some t => simp [DB.setTask]

/-- After the in-place update of an assignment row, looking the row up by its
id yields the updated row. -/
theorem getAssignment_setAssignment (db : DB) (aid : Nat)
    (a a2 : TaskAssignment) (ha : getAssignment db aid = some a)
    (hid : a2.id = a.id) :
    getAssignment (db.setAssignment a2) aid = some a2 := by
  have haid : a.id = aid := by
    have := List.find?_some ha
    simpa using this
  unfold getAssignment DB.setAssignment
  exact find?_map_replace _ _ a2 (by simp [hid, haid])
    (fun x hx => by
      have : x.id = aid := by simpa using hx
      simp [this, hid, haid])
    (fun x hx => by
      have : ¬ x.id = aid := by simpa using hx
      simp [hid, haid]
      intro hcon
      exact absurd hcon this) _ a ha

/-- After the in-place update of a redemption row, looking the row up by its
id yields the updated row. -/
theorem getRedemption_setRedemption (db : DB) (rid : Nat)
    (r r2 : Redemption) (hr : getRedemption db rid = some r)
    (hid : r2.id = r.id) :
    getRedemption (db.setRedemption r2) rid = some r2 := by
  have hrid : r.id = rid := by
    have := List.find?_some hr
    simpa using this
  unfold getRedemption DB.setRedemption
  exact find?_map_replace _ _ r2 (by simp [hid, hrid])
    (fun x hx => by
      have : x.id = rid := by simpa using hx
      simp [this, hid, hrid])
    (fun x hx => by
      have : ¬ x.id = rid := by simpa using hx
      simp [hid, hrid]
      intro hcon
      exact absurd hcon this) _ r hr

/-- After the in-place update of a task row, looking the row up by its id
yields the updated row. -/
theorem getTask_setTask (db : DB) (tid : Nat)
    (t t2 : Task) (ht : getTask db tid = some t) (hid : t2.id = t.id) :
    getTask (db.setTask t2) tid = some t2 := by
  have htid : t.id = tid := by
    have := List.find?_some ht
    simpa using this
  unfold getTask DB.setTask
  exact find?_map_replace _ _ t2 (by simp [hid, htid])
    (fun x hx => by
      have : x.id = tid := by simpa using hx
      simp [this, hid, htid])
    (fun x hx => by
      have : ¬ x.id = tid := by simpa using hx
      simp [hid, htid]
      intro hcon
      exact absurd hcon this) _ t ht

theorem getAssignment_congr (db db2 : DB) (h : db.assignments = db2.assignments)
    (i : Nat) : getAssignment db i = getAssignment db2 i := by
  unfold getAssignment; rw [h]

/-- Idempotent branch of complete_assignment: an already-completed assignment
is returned unchanged, with the database untouched. -/
theorem complete_already (db : DB) (now txnId aid mid : Nat) (a : TaskAssignment)
    (ha : getAssignment db aid = some a) (hm : a.assignee_id = mid)
    (hc : a.is_completed = true) :
    complete_assignment db now txnId aid mid = some (db, a) := by
  unfold complete_assignment
  rw [ha]
  simp [hm, hc]

/-- Fresh branch of complete_assignment: an uncompleted assignment is marked
completed, the credit block runs, and the task status is recomputed. -/
theorem complete_fresh (db : DB) (now txnId aid mid : Nat) (a : TaskAssignment)
    (ha : getAssignment db aid = some a) (hm : a.assignee_id = mid)
    (hc : a.is_completed = false) :
    complete_assignment db now txnId aid mid =
      some (taskStatusStep
              (creditStep
                (db.setAssignment { a with is_completed := true, completed_at := some now })
                txnId { a with is_completed := true, completed_at := some now } mid)
              a.task_id,
            { a with is_completed := true, completed_at := some now }) := by
  unfold complete_assignment
  rw [ha]
  simp [hm, hc]

/-- Any successful complete_assignment leaves the returned record completed,
owned by the caller, and retrievable from the returned database. -/
theorem complete_assignment_post (db db1 : DB) (now txnId aid mid : Nat)
    (a1 : TaskAssignment)
    (h : complete_assignment db now txnId aid mid = some (db1, a1)) :
    getAssignment db1 aid = some a1 ∧ a1.assignee_id = mid ∧
      a1.is_completed = true := by
  cases ha : getAssignment db aid with
  | none =>
    unfold complete_assignment at h
    rw [ha] at h
    exact absurd h (by simp)
  | some a =>
    by_cases hm : a.assignee_id = mid
    case neg =>
      unfold complete_assignment at h
      rw [ha] at h
      simp [hm] at h
    by_cases hc : a.is_completed = true
    · rw [complete_already db now txnId aid mid a ha hm hc] at h
      simp only [Option.some.injEq, Prod.mk.injEq] at h
      obtain ⟨h1, h2⟩ := h
      subst h1; subst h2
      exact ⟨ha, hm, hc⟩
    · have hc2 : a.is_completed = false := by
        cases hcc : a.is_completed
        · rfl
        · exact absurd hcc hc
      rw [complete_fresh db now txnId aid mid a ha hm hc2] at h
      simp only [Option.some.injEq, Prod.mk.injEq] at h
      obtain ⟨h1, h2⟩ := h
      subst h1; subst h2
      refine ⟨?_, hm, rfl⟩
      calc getAssignment
            (taskStatusStep
              (creditStep
                (db.setAssignment { a with is_completed := true, completed_at := some now })
                txnId { a with is_completed := true, completed_at := some now } mid)
              a.task_id) aid
          = getAssignment
              (db.setAssignment { a with is_completed := true, completed_at := some now }) aid := by
            apply getAssignment_congr
            rw [taskStatusStep_assignments, creditStep_assignments]
        _ = some { a with is_completed := true, completed_at := some now } :=
            getAssignment_setAssignment db aid a _ ha rfl

/-- Claim C2: no double-credit.  If an assignment is already completed,
complete_assignment called by the assignee returns the existing record with
the database unchanged (so no wallet mutation and no new Transaction); and
after any successful call, a second call returns the same record and the
same database, so the wallet is credited exactly once. -/
theorem complete_assignment_no_double_credit (db : DB)
    (now1 txn1 now2 txn2 aid mid : Nat) :
    (∀ a, getAssignment db aid = some a → a.assignee_id = mid →
        a.is_completed = true →
        complete_assignment db now1 txn1 aid mid = some (db, a)) ∧
    (∀ db1 a1, complete_assignment db now1 txn1 aid mid = some (db1, a1) →
        complete_assignment db1 now2 txn2 aid mid = some (db1, a1)) := by
  constructor
  · intro a ha hm hc
    exact complete_already db now1 txn1 aid mid a ha hm hc
  · intro db1 a1 h
    obtain ⟨h1, h2, h3⟩ := complete_assignment_post db db1 now1 txn1 aid mid a1 h
    exact complete_already db1 now2 txn2 aid mid a1 h1 h2 h3

theorem getTask_congr (db db2 : DB) (h : db.tasks = db2.tasks) (i : Nat) :
    getTask db i = getTask db2 i := by
  unfold getTask; rw [h]

theorem allAssignmentsCompleted_congr (db db2 : DB)
    (h : db.assignments = db2.assignments) (i : Nat) :
    allAssignmentsCompleted db i = allAssignmentsCompleted db2 i := by
  unfold allAssignmentsCompleted; rw [h]

/-- The credit block is a no-op when the wallet is missing, the task is
missing, or the task carries zero points. -/
theorem creditStep_no_credit (db : DB) (txnId : Nat) (a2 : TaskAssignment)
    (mid : Nat)
    (hno : getWallet db a2.assignee_id = none ∨ getTask db a2.task_id = none ∨
           ∃ t, getTask db a2.task_id = some t ∧ t.points_value = 0) :
    creditStep db txnId a2 mid = db := by
  unfold creditStep
  rcases hno with hw | ht | ⟨t, ht, hp⟩
  · rw [hw]
    cases getTask db a2.task_id <;> rfl
  · rw [ht]
  · rw [ht]
    cases getWallet db a2.assignee_id with
    | none => rfl
    | some w => simp [hp]

/-- Success branch of approve_redemption, written out: the wallet is debited,
the SPEND transaction appended, and the redemption stamped APPROVED. -/
theorem approve_success (db : DB) (now txnId rid : Nat) (ap : Option Nat)
    (red : Redemption) (wallet : Wallet) (reward : Reward)
    (hr : getRedemption db rid = some red)
    (hs : red.status = RedemptionStatus.REQUESTED)
    (hw : walletsOfMember db red.requested_by_member_id = [wallet])
    (hrw : getReward db red.reward_id = some reward)
    (hb : ¬ wallet.balance < reward.cost_points) :
    approve_redemption db now txnId rid ap =
      ApproveOutcome.ok
        (((db.setWallet { wallet with balance := wallet.balance - reward.cost_points }).addTxn
            { id := txnId, wallet_id := wallet.id, amount := -reward.cost_points
              type := TransactionType.SPEND, reason := mkRedeemReason reward.title
              task_assignment_id := none, redemption_id := some red.id
              created_by_member_id := ap }).setRedemption
          { red with approved_by_member_id := ap
                     status := RedemptionStatus.APPROVED, updated_at := now })
        { red with approved_by_member_id := ap
                   status := RedemptionStatus.APPROVED, updated_at := now } := by
  unfold approve_redemption
  rw [hr]
  simp [hs, hw, hrw, hb]

/-- Any successful approve_redemption leaves the returned redemption in
APPROVED status and retrievable from the returned database. -/
theorem approve_redemption_post (db db1 : DB) (now txnId rid : Nat)
    (ap : Option Nat) (red1 : Redemption)
    (h : approve_redemption db now txnId rid ap = ApproveOutcome.ok db1 red1) :
    getRedemption db1 rid = some red1 ∧
      red1.status = RedemptionStatus.APPROVED := by
  cases hr : getRedemption db rid with
  | none =>
    unfold approve_redemption at h
    rw [hr] at h
    exact absurd h (by simp)
  | some red =>
    by_cases hs : red.status = RedemptionStatus.REQUESTED
    case neg =>
      unfold approve_redemption at h
      rw [hr] at h
      simp [hs] at h
    cases hw : walletsOfMember db red.requested_by_member_id with
    | nil =>
      unfold approve_redemption at h
      rw [hr] at h
      simp [hs, hw] at h
    | cons w ws =>
      cases ws with
      | cons w2 ws2 =>
        unfold approve_redemption at h
        rw [hr] at h
        simp [hs, hw] at h
      | nil =>
        cases hrw : getReward db red.reward_id with
        | none =>
          unfold approve_redemption at h
          rw [hr] at h
          simp [hs, hw, hrw] at h
        | some reward =>
          by_cases hb : w.balance < reward.cost_points
          · unfold approve_redemption at h
            rw [hr] at h
            simp [hs, hw, hrw, hb] at h
          · rw [approve_success db now txnId rid ap red w reward hr hs hw hrw hb] at h
            simp only [ApproveOutcome.ok.injEq] at h
            obtain ⟨h1, h2⟩ := h
            subst h1; subst h2
            refine ⟨?_, rfl⟩
            exact getRedemption_setRedemption _ rid red _ hr rfl

/-- Claim C7: assigning a task to a member of another family fails with the
cross-family ValueError and returns no assignment (the database is not
extended). -/
theorem assign_task_cross_family (db : DB) (newId task_id assignee_id : Nat)
    (task : Task) (assignee : FamilyMember)
    (ht : getTask db task_id = some task)
    (hm : getMember db assignee_id = some assignee)
    (hfam : assignee.family_id ≠ task.family_id) :
    assign_task db newId task_id assignee_id =
      Except.error AssignError.crossFamily := by
  unfold assign_task
  rw [ht, hm]
  simp [hfam]

/-- Claim C3: no double-debit.  After a successful approval the redemption
stored in the returned database is in APPROVED status, so a second
approve_redemption call fails with the status-mismatch no-result (returning
no new database, hence leaving the wallet and the redemption unchanged): the
wallet is debited exactly once. -/
theorem approve_redemption_no_double_debit (db db1 : DB)
    (now1 txn1 now2 txn2 rid : Nat) (ap1 ap2 : Option Nat) (red1 : Redemption)
    (h : approve_redemption db now1 txn1 rid ap1 = ApproveOutcome.ok db1 red1) :
    approve_redemption db1 now2 txn2 rid ap2 = ApproveOutcome.noResult ∧
      getRedemption db1 rid = some red1 ∧
      red1.status = RedemptionStatus.APPROVED := by
  obtain ⟨h1, h2⟩ := approve_redemption_post db db1 now1 txn1 rid ap1 red1 h
  refine ⟨?_, h1, h2⟩
  unfold approve_redemption
  rw [h1]
  simp [h2]

/-- Claim C4: insufficient funds.  For a REQUESTED redemption whose
requester's only wallet has balance strictly below the reward cost,
approve_redemption returns the no-result failure and no new database, so the
wallet balance and the redemption status are unchanged. -/
theorem approve_redemption_insufficient (db : DB) (now txnId rid : Nat)
    (ap : Option Nat) (red : Redemption) (wallet : Wallet) (reward : Reward)
    (hr : getRedemption db rid = some red)
    (hs : red.status = RedemptionStatus.REQUESTED)
    (hw : walletsOfMember db red.requested_by_member_id = [wallet])
    (hrw : getReward db red.reward_id = some reward)
    (hb : wallet.balance < reward.cost_points) :
    approve_redemption db now txnId rid ap = ApproveOutcome.noResult := by
  unfold approve_redemption
  rw [hr]
  simp [hs, hw, hrw, hb]

/-- Claim C9: wallet-less requester.  For a REQUESTED redemption whose
requester has no wallet row, approve_redemption ends in the untyped
scalar_one exception rather than the typed no-result failure, and no new
database state is produced. -/
theorem approve_redemption_no_wallet (db : DB) (now txnId rid : Nat)
    (ap : Option Nat) (red : Redemption)
    (hr : getRedemption db rid = some red)
    (hs : red.status = RedemptionStatus.REQUESTED)
    (hw : walletsOfMember db red.requested_by_member_id = []) :
    approve_redemption db now txnId rid ap = ApproveOutcome.noWalletRow := by
  unfold approve_redemption
  rw [hr]
  simp [hs, hw]

/-- Claim C5 (amended): edit lock for authorized editors.  For an editor in
the task's family who passes the permission check (task creator or PARENT
role), update_task on a task with a completed assignment or DONE status
fails with the TaskLocked ValueError, producing no new database state. -/
theorem update_task_locked_for_authorized (db : DB) (tid eid : Nat)
    (ti de : Option String) (dl : Option Nat) (pv : Option Int)
    (task : Task) (editor : FamilyMember)
    (ht : getTask db tid = some task) (he : getMember db eid = some editor)
    (hfam : editor.family_id = task.family_id)
    (hperm : task.created_by_member_id = some eid ∨
             editor.role = MemberRole.PARENT)
    (hlock : anyAssignmentCompleted db tid = true ∨
             task.status = TaskStatus.DONE) :
    update_task db tid eid ti de dl pv = UpdateResult.locked := by
  unfold update_task
  rw [ht, he]
  rcases hperm with hp | hp <;> rcases hlock with hl | hl <;> simp [hfam, hp, hl]

/-- Claim C8: after any successful first completion, the parent task's status
is recomputed to DONE exactly when all its assignments are completed and to
IN_PROGRESS otherwise, whatever the prior status was (in particular EXPIRED
is overwritten). -/
theorem complete_assignment_recomputes_status (db : DB) (now txnId aid mid : Nat)
    (a : TaskAssignment) (t : Task)
    (ha : getAssignment db aid = some a) (hm : a.assignee_id = mid)
    (hc : a.is_completed = false) (ht : getTask db a.task_id = some t) :
    ∃ db1 t1, complete_assignment db now txnId aid mid =
        some (db1, { a with is_completed := true, completed_at := some now }) ∧
      getTask db1 a.task_id = some t1 ∧
      t1.status = (if allAssignmentsCompleted db1 a.task_id then TaskStatus.DONE
                   else TaskStatus.IN_PROGRESS) := by
  have hfr := complete_fresh db now txnId aid mid a ha hm hc
  set a2 : TaskAssignment :=
    { a with is_completed := true, completed_at := some now } with ha2
  set dbC : DB := creditStep (db.setAssignment a2) txnId a2 mid with hdbC
  have hgt : getTask dbC a.task_id = some t := by
    rw [getTask_congr dbC db
      (by rw [hdbC, creditStep_tasks, setAssignment_tasks]) a.task_id]
    exact ht
  have hstep : taskStatusStep dbC a.task_id =
      dbC.setTask
        { t with status := if allAssignmentsCompleted dbC a.task_id
                           then TaskStatus.DONE else TaskStatus.IN_PROGRESS } := by
    unfold taskStatusStep
    rw [hgt]
  refine ⟨taskStatusStep dbC a.task_id,
    { t with status := if allAssignmentsCompleted dbC a.task_id
                       then TaskStatus.DONE else TaskStatus.IN_PROGRESS },
    hfr, ?_, ?_⟩
  · rw [hstep]
    exact getTask_setTask dbC a.task_id t _ hgt rfl
  · rw [allAssignmentsCompleted_congr (taskStatusStep dbC a.task_id) dbC
      (taskStatusStep_assignments dbC a.task_id) a.task_id]

/-- Claim C10: silent forfeiture.  Completing an uncompleted assignment whose
assignee lacks a wallet row, or whose parent task is missing or carries zero
points, still succeeds (marks is_completed and stamps completed_at) while
leaving the wallet table and the transaction table untouched. -/
theorem complete_assignment_forfeits_points (db : DB) (now txnId aid mid : Nat)
    (a : TaskAssignment)
    (ha : getAssignment db aid = some a) (hm : a.assignee_id = mid)
    (hc : a.is_completed = false)
    (hno : getWallet db a.assignee_id = none ∨ getTask db a.task_id = none ∨
           ∃ t, getTask db a.task_id = some t ∧ t.points_value = 0) :
    ∃ db1, complete_assignment db now txnId aid mid =
        some (db1, { a with is_completed := true, completed_at := some now }) ∧
      db1.wallets = db.wallets ∧ db1.transactions = db.transactions := by
  have hfr := complete_fresh db now txnId aid mid a ha hm hc
  set a2 : TaskAssignment :=
    { a with is_completed := true, completed_at := some now } with ha2
  have hno2 : getWallet (db.setAssignment a2) a2.assignee_id = none ∨
      getTask (db.setAssignment a2) a2.task_id = none ∨
      ∃ t, getTask (db.setAssignment a2) a2.task_id = some t ∧
        t.points_value = 0 := hno
  have hcr : creditStep (db.setAssignment a2) txnId a2 mid =
      db.setAssignment a2 :=
    creditStep_no_credit (db.setAssignment a2) txnId a2 mid hno2
  refine ⟨_, hfr, ?_, ?_⟩
  · rw [taskStatusStep_wallets, hcr, setAssignment_wallets]
  · rw [taskStatusStep_transactions, hcr, setAssignment_transactions]

/-! ### Concrete database states used by the scenario claims and witnesses -/

instance {ε α : Type} [DecidableEq ε] [DecidableEq α] :
    DecidableEq (Except ε α) := fun a b =>
  match a, b with
  | Except.ok x, Except.ok y =>
    if h : x = y then Decidable.isTrue (h ▸ rfl)
    else Decidable.isFalse (fun hc => h (Except.ok.inj hc))
  | Except.error x, Except.error y =>
    if h : x = y then Decidable.isTrue (h ▸ rfl)
    else Decidable.isFalse (fun hc => h (Except.error.inj hc))
  | Except.ok _, Except.error _ =>
    Decidable.isFalse (fun hc => Except.noConfusion hc)
  | Except.error _, Except.ok _ =>
    Decidable.isFalse (fun hc => Except.noConfusion hc)

/-- One child member with a zero-balance wallet and one OPEN 10-point task. -/
def c6dbStart : DB :=
  { members := [⟨2, 1, 20, MemberRole.CHILD⟩]
    tasks := [⟨1, 1, "Clean room", none, none, TaskStatus.OPEN, 10, none⟩]
    assignments := [], wallets := [⟨3, 2, 0⟩], transactions := []
    rewards := [], redemptions := [] }

def c6aPending : TaskAssignment := ⟨4, 1, 2, false, none⟩

/-- State after assign_task: task IN_PROGRESS, one uncompleted assignment. -/
def c6dbAssigned : DB :=
  { members := [⟨2, 1, 20, MemberRole.CHILD⟩]
    tasks := [⟨1, 1, "Clean room", none, none, TaskStatus.IN_PROGRESS, 10, none⟩]
    assignments := [c6aPending], wallets := [⟨3, 2, 0⟩], transactions := []
    rewards := [], redemptions := [] }

def c6aDone : TaskAssignment := ⟨4, 1, 2, true, some 99⟩

def c6txn : Transaction :=
  ⟨5, 3, 10, TransactionType.EARN, mkEarnReason "Clean room", some 4, none, some 2⟩

/-- State after complete_assignment: task DONE, balance 10, one EARN row. -/
def c6dbDone : DB :=
  { members := [⟨2, 1, 20, MemberRole.CHILD⟩]
    tasks := [⟨1, 1, "Clean room", none, none, TaskStatus.DONE, 10, none⟩]
    assignments := [c6aDone], wallets := [⟨3, 2, 10⟩], transactions := [c6txn]
    rewards := [], redemptions := [] }

/-- Claim C6: the completion scenario.  Starting from a zero-balance wallet
and a 10-point OPEN task, assigning and then completing the assignment as
the assignee yields balance 10, exactly one EARN transaction of amount 10
referencing the assignment with the task-title reason, and task status
DONE. -/
theorem completion_scenario :
    assign_task c6dbStart 4 1 2 = Except.ok (c6dbAssigned, c6aPending) ∧
    complete_assignment c6dbAssigned 99 5 4 2 = some (c6dbDone, c6aDone) ∧
    getWallet c6dbDone 2 = some ⟨3, 2, 10⟩ ∧
    c6dbDone.transactions = [c6txn] ∧
    earnTxnsFor c6dbDone 4 = [c6txn] ∧
    c6txn.amount = 10 ∧ c6txn.reason = mkEarnReason "Clean room" ∧
    (getTask c6dbDone 1).map Task.status = some TaskStatus.DONE := by
  decide

/-- Witness for claim C2 at a concrete input: completing the c6 assignment a
second time returns the completed record and the unchanged database. -/
theorem complete_assignment_no_double_credit_witness :
    complete_assignment c6dbDone 100 6 4 2 = some (c6dbDone, c6aDone) :=
  (complete_assignment_no_double_credit c6dbAssigned 99 5 100 6 4 2).2
    c6dbDone c6aDone (by decide)

/-- A child member whose 10-point wallet balance is backed by one EARN
transaction, plus an active 5-point reward: the ledger invariant holds. -/
def c1db : DB :=
  { members := [⟨2, 1, 7, MemberRole.CHILD⟩]
    tasks := [], assignments := []
    wallets := [⟨3, 2, 10⟩]
    transactions := [⟨4, 3, 10, TransactionType.EARN, "seed", none, none, none⟩]
    rewards := [⟨5, 1, "Ice cream", none, 5, true⟩]
    redemptions := [] }

/-- State produced by redeem_now on c1db: the balance dropped to 5 and a
REDEEMED redemption appeared, but no Transaction row was inserted. -/
def c1dbAfter : DB :=
  { members := [⟨2, 1, 7, MemberRole.CHILD⟩]
    tasks := [], assignments := []
    wallets := [⟨3, 2, 5⟩]
    transactions := [⟨4, 3, 10, TransactionType.EARN, "seed", none, none, none⟩]
    rewards := [⟨5, 1, "Ice cream", none, 5, true⟩]
    redemptions := [⟨6, 5, 2, some 2, RedemptionStatus.REDEEMED, 99, some 99⟩] }

/-- Claim C1 fails on the code: the instant-redeem route debits the wallet
without writing any Transaction row, so a state satisfying the ledger
invariant stops satisfying it after one successful redeem_now call. -/
theorem redeem_now_breaks_ledger_integrity :
    ledgerIntegrity c1db = true ∧
    redeem_now c1db 99 6 5 7 = RedeemNowResult.ok c1dbAfter 5 ∧
    c1dbAfter.transactions = c1db.transactions ∧
    ledgerIntegrity c1dbAfter = false := by
  decide

/-- Child requester with balance 20 (backed by a seed transaction), a
15-point reward and a REQUESTED redemption: approval succeeds. -/
def c3db : DB :=
  { members := [⟨2, 1, 7, MemberRole.CHILD⟩, ⟨9, 1, 8, MemberRole.PARENT⟩]
    tasks := [], assignments := []
    wallets := [⟨3, 2, 20⟩]
    transactions := [⟨4, 3, 20, TransactionType.EARN, "seed", none, none, none⟩]
    rewards := [⟨5, 1, "Movie", none, 15, true⟩]
    redemptions := [⟨6, 5, 2, none, RedemptionStatus.REQUESTED, 0, none⟩] }

def c3red1 : Redemption := ⟨6, 5, 2, some 9, RedemptionStatus.APPROVED, 50, none⟩

/-- State after the successful approval of the c3db redemption. -/
def c3dbApproved : DB :=
  { members := [⟨2, 1, 7, MemberRole.CHILD⟩, ⟨9, 1, 8, MemberRole.PARENT⟩]
    tasks := [], assignments := []
    wallets := [⟨3, 2, 5⟩]
    transactions := [⟨4, 3, 20, TransactionType.EARN, "seed", none, none, none⟩,
                     ⟨7, 3, -15, TransactionType.SPEND, mkRedeemReason "Movie",
                      none, some 6, some 9⟩]
    rewards := [⟨5, 1, "Movie", none, 15, true⟩]
    redemptions := [c3red1] }

/-- Witness for claim C3 at a concrete input. -/
theorem approve_redemption_no_double_debit_witness :
    approve_redemption c3dbApproved 60 8 6 (some 9) = ApproveOutcome.noResult ∧
    getRedemption c3dbApproved 6 = some c3red1 ∧
    c3red1.status = RedemptionStatus.APPROVED :=
  approve_redemption_no_double_debit c3db c3dbApproved 50 7 60 8 6
    (some 9) (some 9) c3red1 (by decide)

/-- The spec scenario for claim C4: balance 10, reward cost 15, REQUESTED. -/
def c4db : DB :=
  { members := [⟨2, 1, 7, MemberRole.CHILD⟩]
    tasks := [], assignments := []
    wallets := [⟨3, 2, 10⟩]
    transactions := [⟨4, 3, 10, TransactionType.EARN, "seed", none, none, none⟩]
    rewards := [⟨5, 1, "Big reward", none, 15, true⟩]
    redemptions := [⟨6, 5, 2, none, RedemptionStatus.REQUESTED, 0, none⟩] }

def c4red : Redemption := ⟨6, 5, 2, none, RedemptionStatus.REQUESTED, 0, none⟩

def c4wallet : Wallet := ⟨3, 2, 10⟩

def c4reward : Reward := ⟨5, 1, "Big reward", none, 15, true⟩

/-- Witness for claim C4 at the spec's 10-versus-15 scenario. -/
theorem approve_redemption_insufficient_witness :
    approve_redemption c4db 50 7 6 (some 9) = ApproveOutcome.noResult :=
  approve_redemption_insufficient c4db 50 7 6 (some 9) c4red c4wallet c4reward
    (by decide) (by decide) (by decide) (by decide) (by decide)

/-- A parent creator, a child non-creator, and a task with one completed
assignment. -/
def c5db : DB :=
  { members := [⟨10, 1, 100, MemberRole.PARENT⟩, ⟨2, 1, 20, MemberRole.CHILD⟩]
    tasks := [⟨1, 1, "Chore", none, none, TaskStatus.IN_PROGRESS, 5, some 10⟩]
    assignments := [⟨3, 1, 2, true, some 1⟩]
    wallets := [], transactions := [], rewards := [], redemptions := [] }

def c5task : Task := ⟨1, 1, "Chore", none, none, TaskStatus.IN_PROGRESS, 5, some 10⟩

def c5parent : FamilyMember := ⟨10, 1, 100, MemberRole.PARENT⟩

/-- Counterexample to claim C5 as stated: member 2 is a CHILD in the task's
family who is not the creator; the task has a completed assignment, yet
update_task returns the plain permission no-result, not the TaskLocked
error. -/
theorem update_task_role_counterexample :
    anyAssignmentCompleted c5db 1 = true ∧
    getMember c5db 2 = some ⟨2, 1, 20, MemberRole.CHILD⟩ ∧
    update_task c5db 1 2 none none none none = UpdateResult.noResult ∧
    UpdateResult.noResult ≠ UpdateResult.locked := by
  decide

/-- Witness for the amended claim C5: the parent creator hits TaskLocked. -/
theorem update_task_locked_for_authorized_witness :
    update_task c5db 1 10 none none none none = UpdateResult.locked :=
  update_task_locked_for_authorized c5db 1 10 none none none none
    c5task c5parent (by decide) (by decide) (by decide)
    (Or.inl (by decide)) (Or.inl (by decide))

/-- A task in family 1 and a member of family 2. -/
def c7db : DB :=
  { members := [⟨2, 2, 7, MemberRole.CHILD⟩]
    tasks := [⟨1, 1, "T7", none, none, TaskStatus.OPEN, 0, none⟩]
    assignments := [], wallets := [], transactions := []
    rewards := [], redemptions := [] }

def c7task : Task := ⟨1, 1, "T7", none, none, TaskStatus.OPEN, 0, none⟩

def c7member : FamilyMember := ⟨2, 2, 7, MemberRole.CHILD⟩

/-- Witness for claim C7 at a concrete cross-family pair. -/
theorem assign_task_cross_family_witness :
    assign_task c7db 9 1 2 = Except.error AssignError.crossFamily :=
  assign_task_cross_family c7db 9 1 2 c7task c7member
    (by decide) (by decide) (by decide)

/-- An EXPIRED task with one uncompleted assignment. -/
def c8db : DB :=
  { members := [⟨2, 1, 20, MemberRole.CHILD⟩]
    tasks := [⟨1, 1, "Old chore", none, none, TaskStatus.EXPIRED, 10, none⟩]
    assignments := [⟨4, 1, 2, false, none⟩]
    wallets := [⟨3, 2, 0⟩], transactions := [], rewards := [], redemptions := [] }

def c8a : TaskAssignment := ⟨4, 1, 2, false, none⟩

def c8t : Task := ⟨1, 1, "Old chore", none, none, TaskStatus.EXPIRED, 10, none⟩

/-- Witness for claim C8 on an EXPIRED task. -/
theorem complete_assignment_recomputes_status_witness :
    ∃ db1 t1, complete_assignment c8db 7 5 4 2 =
        some (db1, { c8a with is_completed := true, completed_at := some 7 }) ∧
      getTask db1 c8a.task_id = some t1 ∧
      t1.status = (if allAssignmentsCompleted db1 c8a.task_id then TaskStatus.DONE
                   else TaskStatus.IN_PROGRESS) :=
  complete_assignment_recomputes_status c8db 7 5 4 2 c8a c8t
    (by decide) (by decide) (by decide) (by decide)

/-- A REQUESTED redemption whose requester has no wallet row. -/
def c9db : DB :=
  { members := [⟨2, 1, 7, MemberRole.CHILD⟩]
    tasks := [], assignments := [], wallets := [], transactions := []
    rewards := [⟨5, 1, "R9", none, 3, true⟩]
    redemptions := [⟨6, 5, 2, none, RedemptionStatus.REQUESTED, 0, none⟩] }

def c9red : Redemption := ⟨6, 5, 2, none, RedemptionStatus.REQUESTED, 0, none⟩

/-- Witness for claim C9 at a concrete wallet-less requester. -/
theorem approve_redemption_no_wallet_witness :
    approve_redemption c9db 50 7 6 none = ApproveOutcome.noWalletRow :=
  approve_redemption_no_wallet c9db 50 7 6 none c9red
    (by decide) (by decide) (by decide)

/-- An uncompleted assignment whose assignee has no wallet row, under a
10-point task. -/
def c10db : DB :=
  { members := [⟨2, 1, 20, MemberRole.CHILD⟩]
    tasks := [⟨1, 1, "Unpaid chore", none, none, TaskStatus.IN_PROGRESS, 10, none⟩]
    assignments := [⟨4, 1, 2, false, none⟩]
    wallets := [], transactions := [], rewards := [], redemptions := [] }

def c10a : TaskAssignment := ⟨4, 1, 2, false, none⟩

/-- Witness for claim C10: the wallet-less assignee still completes, and the
wallet and transaction tables stay untouched. -/
theorem complete_assignment_forfeits_points_witness :
    ∃ db1, complete_assignment c10db 7 5 4 2 =
        some (db1, { c10a with is_completed := true, completed_at := some 7 }) ∧
      db1.wallets = c10db.wallets ∧ db1.transactions = c10db.transactions :=
  complete_assignment_forfeits_points c10db 7 5 4 2 c10a
    (by decide) (by decide) (by decide) (Or.inl (by decide))

end Famigo
